import Mathlib

/-!
Shallow embedding of the NewsQA dataset adapter (src/datasets/newsqa/newsqa.py).

The script exposes three configurations: "combined-csv" (delimited combined
file), "combined-json" (structured combined file) and "split" (three delimited
partition files).  `Newsqa._split_generators` resolves a root directory to the
partition files; `Newsqa._generate_examples` streams one file and yields
`(id_, record)` pairs.

Modelling conventions:
  * A parsed delimited file is a `List (List String)` of rows; Python's
    `csv.reader` turns a blank line into the empty list `[]`, so blank rows
    are modelled as `[]`.  The byte-level quoting of the csv module is not
    modelled: every claim is about row-level behaviour.
  * Python exceptions (`IndexError`, `KeyError`, `TypeError`, the
    `next()`-on-empty-reader error) become the `Err` type.  A generator that
    raises after yielding some items is modelled as a pair: the list of items
    yielded before the fault, and `Option Err` saying how the pass ended.
  * Structured (JSON) values are the inductive `JVal`; a Python dict is an
    association list in insertion order with the keys pairwise distinct
    (Python dicts cannot hold a key twice).  Numbers are modelled as `Int`:
    every numeric literal in the script (`0`, `0.0`, span offsets) is an
    integer and Python's `==` identifies `0.0` with `0`.
  * Iterating a non-dict where the script expects a dict (or a non-list where
    it expects a list) is modelled as `Err.typeError`; Python would raise
    `TypeError`/`AttributeError` there as well (strings and lists iterate
    differently in Python, but no claim touches that corner).
-/

namespace NewsqaSpec

/-- Python exceptions raised by the script, by kind. -/
inductive Err where
  | indexError : Err
  | keyError : String → Err
  | typeError : Err
  | stopIteration : Err
deriving DecidableEq

/-- CPython `repr` of a string that contains no control characters: double
quotes when the string holds a single quote but no double quote, otherwise
single quotes, escaping backslashes and the chosen quote. -/
def pyEscape (quote : Char) (s : String) : String :=
  String.mk (s.data.foldr (fun c acc => if c = '\\' ∨ c = quote then '\\' :: c :: acc else c :: acc) [])

/-- Python `repr` for one string (quote choice as in CPython). -/
def pyReprStr (s : String) : String :=
  if s.data.contains '\'' && !(s.data.contains '"') then "\"" ++ pyEscape '"' s ++ "\""
  else "'" ++ pyEscape '\'' s ++ "'"

/-- Python `str` of a list of strings: `str(row[2:-2])` in the script. -/
def pyReprStrList (l : List String) : String :=
  "[" ++ String.intercalate ", " (l.map pyReprStr) ++ "]"

/-- Canonical record of the "combined-csv" configuration. -/
structure CombinedCsvRecord where
  story_id : String
  story_text : String
  question : String
  answer_char_ranges : String
deriving DecidableEq

/-- Canonical record of the "split" configuration. -/
structure SplitCsvRecord where
  story_id : String
  story_text : String
  question : String
  answer_token_ranges : String
deriving DecidableEq

/-- One non-blank row of the combined csv:
`{"story_id": row[0], "story_text": row[-1], "question": row[1],
  "answer_char_ranges": str(row[2:-2])}` (newsqa.py lines 224-229).
`row[0]`/`row[-1]`/`row[1]` raise `IndexError` when out of range; the slice
`row[2:-2]` never raises. -/
def combinedCsvRow (row : List String) : Except Err CombinedCsvRecord :=
  match row[0]? with
  | none => .error .indexError
  | some c0 =>
    match row.getLast? with
    | none => .error .indexError
    | some clast =>
      match row[1]? with
      | none => .error .indexError
      | some c1 => .ok ⟨c0, clast, c1, pyReprStrList ((row.take (row.length - 2)).drop 2)⟩

/-- One non-blank row of a split csv:
`{"story_id": row[0], "story_text": row[1], "question": row[2],
  "answer_token_ranges": row[3]}` (newsqa.py lines 292-297). -/
def splitCsvRow (row : List String) : Except Err SplitCsvRecord :=
  match row[0]?, row[1]?, row[2]?, row[3]? with
  | some a, some b, some c, some d => .ok ⟨a, b, c, d⟩
  | _, _, _, _ => .error .indexError

/-- The loop `for id_, row in enumerate(csv_reader): if row: yield id_, ...`
common to both delimited branches, generic in the per-row record builder.
Returns the pairs yielded before the pass ended and how it ended.  Note that
`enumerate` numbers every row, blank ones included: a blank row is skipped
only after it has consumed an index. -/
def rowStream {β : Type} (mk : List String → Except Err β) :
    List (List String) → Nat → List (Nat × β) × Option Err
  | [], _ => ([], none)
  | row :: rest, i =>
    if row = [] then rowStream mk rest (i + 1)
    else
      match mk row with
      | .error e => ([], some e)
      | .ok y =>
        let r := rowStream mk rest (i + 1)
        ((i, y) :: r.1, r.2)

/-- The whole "combined-csv" pass over a parsed file: `_ = next(csv_reader)`
discards the header unconditionally (on an empty file `next` raises, which a
generator surfaces as an error having yielded nothing), then the enumerate
loop runs on the remaining rows. -/
def combinedCsvGen (file : List (List String)) : List (Nat × CombinedCsvRecord) × Option Err :=
  match file with
  | [] => ([], some .stopIteration)
  | _header :: rows => rowStream combinedCsvRow rows 0

/-- The whole "split" pass over a parsed file (same skeleton, lines 284-297). -/
def splitCsvGen (file : List (List String)) : List (Nat × SplitCsvRecord) × Option Err :=
  match file with
  | [] => ([], some .stopIteration)
  | _header :: rows => rowStream splitCsvRow rows 0

/-- Structured (JSON) values.  A Python dict is an association list in
insertion order; `json.load` can never produce a dict holding the same key
twice, so raw dicts have pairwise distinct keys (stated as a hypothesis where
a proof needs it). -/
inductive JVal where
  | str : String → JVal
  | num : Int → JVal
  | bool : Bool → JVal
  | arr : List JVal → JVal
  | obj : List (String × JVal) → JVal

/-- A Python dict of structured values. -/
abbrev Dict := List (String × JVal)

/-- Python `d[key]` on a dict: the value of the first (only) entry with that
key, `none` when absent. -/
def dget : Dict → String → Option JVal
  | [], _ => none
  | (k, v) :: rest, key => if k = key then some v else dget rest key

/-- Python `d[key] = v` on a dict: overwrite the (unique) existing entry in
place when the key is present, append a new entry at the end otherwise
(insertion order preserved). -/
def dset : Dict → String → JVal → Dict
  | [], key, v => [(key, v)]
  | (k, w) :: rest, key, v =>
    if k = key then (key, v) :: rest
    else (k, w) :: dset rest key v

/-- Write every entry of `raw`, in order, over `base`:
`for key in raw: base[key] = raw[key]` — also the meaning of the dict merge
`{**base, **raw}` (newsqa.py lines 250-251, 258-259, 272). -/
def mergeOver (base : Dict) (raw : Dict) : Dict :=
  raw.foldl (fun acc p => dset acc p.1 p.2) base

/-- The default consensus dict, newsqa.py line 248. -/
def consensusDefault : Dict :=
  [("s", .num 0), ("e", .num 0), ("badQuestion", .bool false), ("noAnswer", .bool false)]

/-- The default sourcer-answer dict (`dict_temp`), newsqa.py line 257. -/
def sourcerAnswerDefault : Dict :=
  [("s", .num 0), ("e", .num 0), ("badQuestion", .bool false), ("noAnswer", .bool false)]

/-- The default validated-answer dict, newsqa.py lines 264-270. -/
def validatedAnswerDefault : Dict :=
  [("s", .num 0), ("e", .num 0), ("badQuestion", .bool false), ("noAnswer", .bool false),
   ("count", .num 0)]

/-- An element of `answers`: the dict `{"sourcerAnswers": [...]}` built at
newsqa.py lines 255-260, holding one merged dict per raw sourcer answer. -/
structure AnswerRec where
  sourcerAnswers : List Dict

/-- One yielded question dict, with its keys in insertion order:
q, isAnswerAbsent, isQuestionBad, consensus, answers, validated_answers. -/
structure QuestionRec where
  q : JVal
  isAnswerAbsent : JVal
  isQuestionBad : JVal
  consensus : Dict
  answers : List AnswerRec
  validated_answers : List Dict

/-- One yielded story dict of the "combined-json" configuration
(newsqa.py lines 277-282). -/
structure StoryRec where
  storyId : JVal
  text : JVal
  type : JVal
  questions : List QuestionRec

/-- A Python `for`-loop that builds a list by appending `f` of each element,
propagating the first exception (`[f x for x in l]` / append loops). -/
def mapE {α β : Type} (f : α → Except Err β) : List α → Except Err (List β)
  | [] => .ok []
  | x :: xs =>
    match f x with
    | .error e => .error e
    | .ok y =>
      match mapE f xs with
      | .error e => .error e
      | .ok ys => .ok (y :: ys)

/-- Lines 257-259: merge one raw sourcer answer over the default dict
(`for key in sourcer_answer.keys(): dict_temp[key] = sourcer_answer[key]`);
a non-dict raises. -/
def processSourcerAnswer : JVal → Except Err Dict
  | .obj d => .ok (mergeOver sourcerAnswerDefault d)
  | _ => .error .typeError

/-- Lines 254-261: one element of `ques["answers"]` — read its
`sourcerAnswers` list unconditionally and merge each entry over the default. -/
def processAnswer : JVal → Except Err AnswerRec
  | .obj d =>
    (match dget d "sourcerAnswers" with
     | none => .error (.keyError "sourcerAnswers")
     | some (.arr sas) => (mapE processSourcerAnswer sas).map AnswerRec.mk
     | some _ => .error .typeError)
  | _ => .error .typeError

/-- Line 272: `{**default_validated_answer, **val_ans}` for one entry of the
raw `validatedAnswers` list. -/
def processValidated : JVal → Except Err Dict
  | .obj d => .ok (mergeOver validatedAnswerDefault d)
  | _ => .error .typeError

/-- Lines 239-275: normalize one raw question dict.  `ques["q"]`,
`ques["consensus"]` and `ques["answers"]` are read unconditionally (KeyError
when absent); `isAnswerAbsent` and `isQuestionBad` default to `0.0` (= 0)
when absent; `validatedAnswers` defaults to the empty list via
`ques.get("validatedAnswers", [])`. -/
def processQuestion (ques : Dict) : Except Err QuestionRec :=
  match dget ques "q" with
  | none => .error (.keyError "q")
  | some qv =>
    match dget ques "consensus" with
    | none => .error (.keyError "consensus")
    | some (.obj craw) =>
      (match dget ques "answers" with
       | none => .error (.keyError "answers")
       | some (.arr ansRaw) =>
         (match mapE processAnswer ansRaw with
          | .error e => .error e
          | .ok answers =>
            (match (dget ques "validatedAnswers").getD (.arr []) with
             | .arr vas =>
               (match mapE processValidated vas with
                | .error e => .error e
                | .ok validated =>
                  .ok ⟨qv, (dget ques "isAnswerAbsent").getD (.num 0),
                       (dget ques "isQuestionBad").getD (.num 0),
                       mergeOver consensusDefault craw, answers, validated⟩)
             | _ => .error .typeError))
       | some _ => .error .typeError)
    | some _ => .error .typeError

/-- Lines 236-282: one item of the top-level `data` list.  The `questions`
loop runs first; the yielded dict literal then reads `storyId`, `text` and
`type` in that order. -/
def processItem : JVal → Except Err StoryRec
  | .obj d =>
    (match dget d "questions" with
     | none => .error (.keyError "questions")
     | some (.arr qs) =>
       (match mapE (fun q =>
           match q with
           | .obj qd => processQuestion qd
           | _ => .error .typeError) qs with
        | .error e => .error e
        | .ok questions =>
          (match dget d "storyId" with
           | none => .error (.keyError "storyId")
           | some sid =>
             (match dget d "text" with
              | none => .error (.keyError "text")
              | some txt =>
                (match dget d "type" with
                 | none => .error (.keyError "type")
                 | some ty => .ok ⟨sid, txt, ty, questions⟩))))
     | some _ => .error .typeError)
  | _ => .error .typeError

/-- The loop `for id_, item in enumerate(data): ... yield id_, {...}`:
pairs yielded before the pass ended, and how it ended. -/
def enumExcept {β : Type} (f : JVal → Except Err β) :
    List JVal → Nat → List (Nat × β) × Option Err
  | [], _ => ([], none)
  | x :: rest, i =>
    match f x with
    | .error e => ([], some e)
    | .ok y =>
      let r := enumExcept f rest (i + 1)
      ((i, y) :: r.1, r.2)

/-- The whole "combined-json" pass (lines 231-282): `d["data"]` raises
`KeyError` before anything is yielded when the top-level dict lacks `data`
(`TypeError` when the document is not a dict at all), then the enumerate
loop runs over the `data` list. -/
def combinedJsonGen (doc : JVal) : List (Nat × StoryRec) × Option Err :=
  match doc with
  | .obj d =>
    (match dget d "data" with
     | none => ([], some (.keyError "data"))
     | some (.arr items) => enumExcept processItem items 0
     | some _ => ([], some .typeError))
  | _ => ([], some .typeError)

/-- One `datasets.SplitGenerator`: its split name and the `gen_kwargs`
(`filepath`, `split`) it passes to `_generate_examples`. -/
structure SplitGen where
  name : String
  filepath : String
  split : String
deriving DecidableEq

/-- The `manual_download_instructions` property (newsqa.py lines 80-89). -/
def manualDownloadInstructions : String :=
  "Due to legal restrictions with the CNN data and data extraction. The data has to be downloaded from several sources and compiled as per the instructions by Authors.\nUpon obtaining the resulting data folders, it can be loaded easily using the datasets API.\nPlease refer to (https://github.com/Maluuba/newsqa) to download data from Microsoft Reseach site (https://msropendata.com/datasets/939b1042-6402-4697-9c15-7a28de7e1321) and a CNN datasource (https://cs.nyu.edu/~kcho/DMQA/) and run the scripts present here (https://github.com/Maluuba/newsqa).\nThis will generate a folder named \"split-data\" and a file named \"combined-newsqa-data-v1.csv\".\nCopy the above folder and the file to a directory where you want to store them locally."

/-- The message of the `FileNotFoundError` raised at newsqa.py lines 166-168. -/
def missingRootMessage (root : String) : String :=
  root ++ " does not exist. Make sure you insert a manual dir via `datasets.load_dataset('newsqa', data_dir=...)` that includes files from the Manual download instructions: "
       ++ manualDownloadInstructions

/-- Model of `os.path.join` for the relative parts used by the script. -/
def pathJoin (a b : String) : String := a ++ "/" ++ b

/-- `Newsqa._split_generators` (lines 161-211): `root` is the already
absolutized manual directory and `rootExists` the result of
`os.path.exists` on it.  When the directory is missing the
`FileNotFoundError` is raised before any partition path is built; otherwise
the configuration name picks the partition list. -/
def splitGenerators (configName : String) (rootExists : Bool) (root : String) :
    Except String (List SplitGen) :=
  if !rootExists then .error (missingRootMessage root)
  else if configName = "combined-csv" then
    .ok [⟨"train", pathJoin root "combined-newsqa-data-v1.csv", "combined"⟩]
  else if configName = "combined-json" then
    .ok [⟨"train", pathJoin root "combined-newsqa-data-v1.json", "combined"⟩]
  else
    .ok [⟨"train", pathJoin (pathJoin root "split_data") "train.csv", "train"⟩,
         ⟨"test", pathJoin (pathJoin root "split_data") "test.csv", "test"⟩,
         ⟨"validation", pathJoin (pathJoin root "split_data") "dev.csv", "dev"⟩]

/-- Fixture: a raw question whose consensus is `{"s": 5}`. -/
def quesC4 : Dict :=
  [("q", .str "w"), ("consensus", .obj [("s", .num 5)]), ("answers", .arr [])]

/-- The record `processQuestion` yields on `quesC4`. -/
def recC4 : QuestionRec :=
  ⟨.str "w", .num 0, .num 0,
   [("s", .num 5), ("e", .num 0), ("badQuestion", .bool false), ("noAnswer", .bool false)],
   [], []⟩

/-- Fixture: a raw question lacking isAnswerAbsent, isQuestionBad and
validatedAnswers. -/
def quesC5 : Dict :=
  [("q", .str "w"), ("consensus", .obj []), ("answers", .arr [])]

/-- The record `processQuestion` yields on `quesC5`. -/
def recC5 : QuestionRec :=
  ⟨.str "w", .num 0, .num 0, consensusDefault, [], []⟩

/-- Fixture: a raw question whose consensus, sourcer answer and validated
answer each carry a key outside the declared span schema. -/
def quesC10 : Dict :=
  [("q", .str "w"),
   ("consensus", .obj [("s", .num 5), ("weird", .num 7)]),
   ("answers", .arr [.obj [("sourcerAnswers",
      .arr [.obj [("e", .num 2), ("extra", .str "x")]])]]),
   ("validatedAnswers", .arr [.obj [("count", .num 3), ("note", .str "y")]])]

/-- The record `processQuestion` yields on `quesC10`. -/
def recC10 : QuestionRec :=
  ⟨.str "w", .num 0, .num 0,
   [("s", .num 5), ("e", .num 0), ("badQuestion", .bool false), ("noAnswer", .bool false),
    ("weird", .num 7)],
   [⟨[[("s", .num 0), ("e", .num 2), ("badQuestion", .bool false), ("noAnswer", .bool false),
       ("extra", .str "x")]]⟩],
   [[("s", .num 0), ("e", .num 0), ("badQuestion", .bool false), ("noAnswer", .bool false),
     ("count", .num 3), ("note", .str "y")]]⟩

/-! Helper lemmas about dict lookup, dict update and the merge loop. -/

/-- Setting a key makes it present with that value. -/
theorem dget_dset_self (d : Dict) (key : String) (v : JVal) :
    dget (dset d key v) key = some v := by
  induction d with
  | nil => simp [dset, dget]
  | cons p rest ih =>
    obtain ⟨k, w⟩ := p
    by_cases hk : k = key
    · simp [dset, dget, hk]
    · simp [dset, dget, hk, ih]

/-- Setting one key leaves every other key unchanged. -/
theorem dget_dset_ne (d : Dict) {k key : String} (v : JVal) (hne : k ≠ key) :
    dget (dset d key v) k = dget d k := by
  induction d with
  | nil => simp [dset, dget, Ne.symm hne]
  | cons p rest ih =>
    obtain ⟨k₀, w⟩ := p
    by_cases hk : k₀ = key
    · subst hk
      simp [dset, dget, Ne.symm hne]
    · by_cases hkk : k₀ = k
      · subst hkk
        simp [dset, dget, hk]
      · simp [dset, dget, hk, hkk, ih]

theorem mergeOver_nil (base : Dict) : mergeOver base [] = base := rfl

theorem mergeOver_cons (base : Dict) (k : String) (v : JVal) (rest : Dict) :
    mergeOver base ((k, v) :: rest) = mergeOver (dset base k v) rest := rfl

/-- A key absent from the raw dict keeps its value from the base dict. -/
theorem dget_mergeOver_none {raw : Dict} {k : String} (h : dget raw k = none) :
    ∀ base : Dict, dget (mergeOver base raw) k = dget base k := by
  induction raw with
  | nil => intro base; rfl
  | cons p rest ih =>
    intro base
    obtain ⟨k₀, v₀⟩ := p
    by_cases hk : k₀ = k
    · simp [dget, hk] at h
    · simp only [dget, hk, if_false] at h
      rw [mergeOver_cons, ih h, dget_dset_ne _ _ (fun hkk => hk hkk.symm)]

/-- A key present in a raw dict with pairwise distinct keys ends up in the
merged dict with its raw value, whatever the base dict holds. -/
theorem dget_mergeOver_some {raw : Dict} {k : String} {v : JVal}
    (hnd : (raw.map Prod.fst).Nodup) (h : dget raw k = some v) :
    ∀ base : Dict, dget (mergeOver base raw) k = some v := by
  induction raw with
  | nil => simp [dget] at h
  | cons p rest ih =>
    intro base
    obtain ⟨k₀, v₀⟩ := p
    simp only [List.map_cons, List.nodup_cons] at hnd
    by_cases hk : k₀ = k
    · subst hk
      simp only [dget, if_true, eq_self_iff_true, Option.some.injEq] at h
      subst h
      have hrest : dget rest k₀ = none := by
        clear ih
        induction rest with
        | nil => rfl
        | cons q rq ihq =>
          obtain ⟨k₁, v₁⟩ := q
          simp only [List.map_cons, List.mem_cons, List.nodup_cons] at hnd
          have hne : k₁ ≠ k₀ := by
            intro hh
            exact hnd.1 (Or.inl hh.symm)
          simp only [dget, hne, if_false]
          exact ihq ⟨fun hm => hnd.1 (Or.inr hm), hnd.2.2⟩
      rw [mergeOver_cons, dget_mergeOver_none hrest]
      exact dget_dset_self base k₀ v₀
    · simp only [dget, hk, if_false] at h
      rw [mergeOver_cons]
      exact ih hnd.2 h _

/-- `mapE` succeeds position-wise: the i-th output comes from the i-th input. -/
theorem mapE_ok_get {α β : Type} (f : α → Except Err β) :
    ∀ (l : List α) (l' : List β), mapE f l = .ok l' →
    ∀ (i : Nat) (x : α), l[i]? = some x → ∃ y, l'[i]? = some y ∧ f x = .ok y := by
  intro l
  induction l with
  | nil => intro l' _ i x hx; simp at hx
  | cons a as ih =>
    intro l' h i x hx
    simp only [mapE] at h
    cases hfa : f a with
    | error e => rw [hfa] at h; simp at h
    | ok y =>
      rw [hfa] at h
      cases hrest : mapE f as with
      | error e => rw [hrest] at h; simp at h
      | ok ys =>
        rw [hrest] at h
        cases h
        cases i with
        | zero =>
          simp only [List.getElem?_cons_zero, Option.some.injEq] at hx
          subst hx
          exact ⟨y, by simp, hfa⟩
        | succ n =>
          simp only [List.getElem?_cons_succ] at hx
          obtain ⟨z, hz, hfz⟩ := ih ys hrest n x hx
          exact ⟨z, by simpa using hz, hfz⟩

/-- Every id yielded by the enumerate loop is at least the starting index. -/
theorem rowStream_fst_ge {β : Type} (mk : List String → Except Err β) :
    ∀ (rows : List (List String)) (i : Nat) (p : Nat × β),
      p ∈ (rowStream mk rows i).1 → i ≤ p.1 := by
  intro rows
  induction rows with
  | nil => intro i p hp; simp [rowStream] at hp
  | cons row rest ih =>
    intro i p hp
    by_cases hr : row = []
    · rw [rowStream, if_pos hr] at hp
      exact Nat.le_of_succ_le (ih (i + 1) p hp)
    · rw [rowStream, if_neg hr] at hp
      cases hmk : mk row with
      | error e => rw [hmk] at hp; simp at hp
      | ok y =>
        rw [hmk] at hp
        simp only [List.mem_cons] at hp
        rcases hp with hp | hp
        · subst hp; exact Nat.le_refl i
        · exact Nat.le_of_succ_le (ih (i + 1) p hp)

/-- The ids yielded by the enumerate loop are strictly increasing. -/
theorem rowStream_sorted {β : Type} (mk : List String → Except Err β) :
    ∀ (rows : List (List String)) (i : Nat),
      ((rowStream mk rows i).1.map Prod.fst).Pairwise (· < ·) := by
  intro rows
  induction rows with
  | nil => intro i; simp [rowStream]
  | cons row rest ih =>
    intro i
    by_cases hr : row = []
    · rw [rowStream, if_pos hr]
      exact ih (i + 1)
    · rw [rowStream, if_neg hr]
      cases hmk : mk row with
      | error e => simp
      | ok y =>
        simp only [List.map_cons, List.pairwise_cons]
        refine ⟨?_, ih (i + 1)⟩
        intro a ha
        simp only [List.mem_map] at ha
        obtain ⟨p, hp, hpa⟩ := ha
        subst hpa
        exact Nat.lt_of_succ_le (rowStream_fst_ge mk rest (i + 1) p hp)

/-- When no row is blank, the yielded ids are exactly `i, i+1, ...` — the
dense zero-gap sequence that the spec describes for blank-free input. -/
theorem rowStream_ids_range {β : Type} (mk : List String → Except Err β) :
    ∀ (rows : List (List String)) (i : Nat), (∀ r ∈ rows, r ≠ []) →
      (rowStream mk rows i).1.map Prod.fst =
        List.range' i (rowStream mk rows i).1.length := by
  intro rows
  induction rows with
  | nil => intro i _; rfl
  | cons row rest ih =>
    intro i h
    have hr : row ≠ [] := h row (List.mem_cons_self row rest)
    rw [rowStream, if_neg hr]
    cases hmk : mk row with
    | error e => rfl
    | ok y =>
      have ihr := ih (i + 1) (fun r hm => h r (List.mem_cons_of_mem row hm))
      simp only [List.map_cons, List.length_cons, List.range'_succ]
      rw [ihr]

/-- Inversion of a successful `processQuestion`: every unconditional lookup
succeeded and the record's fields are the merged/defaulted values. -/
theorem processQuestion_ok {ques : Dict} {rec : QuestionRec}
    (h : processQuestion ques = .ok rec) :
    ∃ qv craw ansRaw answers vas validated,
      dget ques "q" = some qv ∧
      dget ques "consensus" = some (.obj craw) ∧
      dget ques "answers" = some (.arr ansRaw) ∧
      mapE processAnswer ansRaw = .ok answers ∧
      (dget ques "validatedAnswers").getD (.arr []) = .arr vas ∧
      mapE processValidated vas = .ok validated ∧
      rec = ⟨qv, (dget ques "isAnswerAbsent").getD (.num 0),
             (dget ques "isQuestionBad").getD (.num 0),
             mergeOver consensusDefault craw, answers, validated⟩ := by
  unfold processQuestion at h
  split at h
  · exact absurd h (by simp)
  next qv hq =>
    split at h
    · exact absurd h (by simp)
    next craw hc =>
      split at h
      · exact absurd h (by simp)
      next ansRaw ha =>
        split at h
        · exact absurd h (by simp)
        next answers hm =>
          split at h
          next vas hv =>
            split at h
            · exact absurd h (by simp)
            next validated hm2 =>
              cases h
              exact ⟨qv, craw, ansRaw, answers, vas, validated,
                     hq, hc, ha, hm, hv, hm2, rfl⟩
          next hv => exact absurd h (by simp)
      next ha2 => exact absurd h (by simp)
    next hc2 => exact absurd h (by simp)

/-! Claim theorems. -/

/-- C1, counterexample: with an interior blank row the combined-delimited
(and split) read yields ids `[0, 2]` — the blank row consumed id 1 — so the
ids are not the dense sequence `[0, 1]` and the 2nd yielded record does not
carry id 1. -/
theorem c1_counterexample :
    ((combinedCsvGen [["h1", "h2", "h3"], ["a", "b", "c"], [], ["d", "e", "f"]]).1.map
        Prod.fst = [0, 2]) ∧
    ((splitCsvGen [["h1", "h2", "h3", "h4"], ["a", "b", "c", "d"], [],
        ["e", "f", "g", "i"]]).1.map Prod.fst = [0, 2]) ∧
    [0, 2] ≠ List.range 2 := by
  exact ⟨by decide, by decide, by decide⟩

/-- C1 (amended): the ids paired with yielded records are always strictly
increasing and zero-based, and they are dense (the n-th record carries id
n-1) whenever the input contains no blank rows; a blank row, however, does
consume an id — `enumerate` numbers it before the skip — so interior blank
rows leave gaps. -/
theorem c1_ids_dense (header : List String) (rows rows2 : List (List String))
    (hnb : ∀ r ∈ rows, r ≠ []) :
    (combinedCsvGen (header :: rows)).1.map Prod.fst =
        List.range (combinedCsvGen (header :: rows)).1.length ∧
    (splitCsvGen (header :: rows)).1.map Prod.fst =
        List.range (splitCsvGen (header :: rows)).1.length ∧
    ((combinedCsvGen (header :: rows2)).1.map Prod.fst).Pairwise (· < ·) ∧
    ((splitCsvGen (header :: rows2)).1.map Prod.fst).Pairwise (· < ·) := by
  refine ⟨?_, ?_, ?_, ?_⟩
  · show (rowStream combinedCsvRow rows 0).1.map Prod.fst = _
    rw [rowStream_ids_range combinedCsvRow rows 0 hnb, List.range_eq_range']
    rfl
  · show (rowStream splitCsvRow rows 0).1.map Prod.fst = _
    rw [rowStream_ids_range splitCsvRow rows 0 hnb, List.range_eq_range']
    rfl
  · exact rowStream_sorted combinedCsvRow rows2 0
  · exact rowStream_sorted splitCsvRow rows2 0

/-- C1 witness: the dense-id property evaluated on a concrete blank-free
file, for both delimited variants. -/
theorem c1_ids_dense_witness :
    (combinedCsvGen [["h"], ["a", "b"], ["c", "d"]]).1.map Prod.fst =
        List.range (combinedCsvGen [["h"], ["a", "b"], ["c", "d"]]).1.length ∧
    (splitCsvGen [["h"], ["a", "b"], ["c", "d"]]).1.map Prod.fst =
        List.range (splitCsvGen [["h"], ["a", "b"], ["c", "d"]]).1.length ∧
    ((combinedCsvGen [["h"], ["a", "b"], ["c", "d"]]).1.map Prod.fst).Pairwise (· < ·) ∧
    ((splitCsvGen [["h"], ["a", "b"], ["c", "d"]]).1.map Prod.fst).Pairwise (· < ·) :=
  c1_ids_dense ["h"] [["a", "b"], ["c", "d"]] [["a", "b"], ["c", "d"]] (by decide)

/-- C2, counterexample: on the spec's fixture the combined-delimited variant
yields `answer_char_ranges = "['0:3']"` — Python's `row[2:-2]` excludes the
second-to-last column — not the claimed `"['0:3', '']"`. -/
theorem c2_counterexample :
    combinedCsvGen [["id", "q", "s1", "s2", "text"], ["A1", "what?", "0:3", "", "story."]] =
      ([(0, ⟨"A1", "story.", "what?", "['0:3']"⟩)], none) ∧
    "['0:3']" ≠ "['0:3', '']" := by
  exact ⟨by decide, by decide⟩

/-- C2 (amended): a file whose single data row is
`story_id :: question :: mid ++ [second_to_last, last]` yields exactly one
record at id 0 with `story_id` from column 0, `story_text` from the last
column, `question` from column 1, and `answer_char_ranges` the Python list
literal of the columns from position 2 up to but excluding the last two
(`str(row[2:-2])`); the second-to-last column is dropped.  On the spec's
fixture this gives `answer_char_ranges = "['0:3']"`. -/
theorem c2_combined_record (header : List String) (sid q s t : String) (mid : List String) :
    combinedCsvGen [header, sid :: q :: (mid ++ [s, t])] =
      ([(0, ⟨sid, t, q, pyReprStrList mid⟩)], none) := by
  have hlast : (sid :: q :: (mid ++ [s, t])).getLast? = some t := by
    have hsplit : sid :: q :: (mid ++ [s, t]) = (sid :: q :: (mid ++ [s])) ++ [t] := by
      simp
    rw [hsplit, List.getLast?_concat]
  have hlen : (sid :: q :: (mid ++ [s, t])).length - 2 = mid.length + 2 := by
    simp only [List.length_cons, List.length_append, List.length_nil]
    omega
  have htake : (sid :: q :: (mid ++ [s, t])).take (mid.length + 2) = sid :: q :: mid := by
    rw [List.take_succ_cons, List.take_succ_cons]
    rw [show mid ++ [s, t] = mid ++ [s, t] from rfl]
    rw [List.take_left' rfl]
  have hrow : combinedCsvRow (sid :: q :: (mid ++ [s, t])) =
      .ok ⟨sid, t, q, pyReprStrList mid⟩ := by
    unfold combinedCsvRow
    rw [hlast]
    simp only [List.getElem?_cons_zero, List.getElem?_cons_succ]
    rw [hlen, htake]
    rfl
  simp [combinedCsvGen, rowStream, hrow]

/-- C3: a non-blank delimited row with too few columns for the fixed
positions the variant reads (positions 0, 1 and the last for
combined-delimited, hence at least 2 columns; positions 0-3 for split, hence
at least 4 columns) makes the row builder raise, and the enumerate loop
propagates the error at that row immediately: nothing is yielded from it or
from any later row. -/
theorem c3_short_row_aborts :
    (∀ row : List String, row ≠ [] → row.length < 2 →
        combinedCsvRow row = .error .indexError) ∧
    (∀ row : List String, row ≠ [] → row.length < 4 →
        splitCsvRow row = .error .indexError) ∧
    (∀ (row : List String) (rest : List (List String)) (i : Nat) (e : Err),
        row ≠ [] → combinedCsvRow row = .error e →
        rowStream combinedCsvRow (row :: rest) i = ([], some e)) ∧
    (∀ (row : List String) (rest : List (List String)) (i : Nat) (e : Err),
        row ≠ [] → splitCsvRow row = .error e →
        rowStream splitCsvRow (row :: rest) i = ([], some e)) := by
  refine ⟨?_, ?_, ?_, ?_⟩
  · intro row hne hlen
    match row with
    | [] => exact absurd rfl hne
    | [a] => rfl
    | a :: b :: r2 => simp only [List.length_cons] at hlen; omega
  · intro row hne hlen
    match row with
    | [] => exact absurd rfl hne
    | [a] => rfl
    | [a, b] => rfl
    | [a, b, c] => rfl
    | a :: b :: c :: d :: r2 => simp only [List.length_cons] at hlen; omega
  · intro row rest i e hne herr
    rw [rowStream, if_neg hne, herr]
  · intro row rest i e hne herr
    rw [rowStream, if_neg hne, herr]

/-- C3 witness: the abort evaluated on concrete short rows; the stream yields
nothing and ends with the index error even though well-formed rows follow. -/
theorem c3_short_row_aborts_witness :
    combinedCsvRow ["x"] = .error .indexError ∧
    splitCsvRow ["x", "y", "z"] = .error .indexError ∧
    rowStream combinedCsvRow [["x"], ["a", "b", "c"]] 0 = ([], some .indexError) ∧
    rowStream splitCsvRow [["x", "y", "z"], ["a", "b", "c", "d"]] 0 = ([], some .indexError) := by
  obtain ⟨h1, h2, h3, h4⟩ := c3_short_row_aborts
  have hc : combinedCsvRow ["x"] = .error .indexError :=
    h1 ["x"] (by decide) (by decide)
  have hs : splitCsvRow ["x", "y", "z"] = .error .indexError :=
    h2 ["x", "y", "z"] (by decide) (by decide)
  exact ⟨hc, hs, h3 ["x"] [["a", "b", "c"]] 0 .indexError (by decide) hc,
         h4 ["x", "y", "z"] [["a", "b", "c", "d"]] 0 .indexError (by decide) hs⟩

/-- C4: a successful combined-structured question starts its consensus from
the default `{s: 0, e: 0, badQuestion: false, noAnswer: false}` and overrides
exactly the keys present in the raw consensus object, key-wise: keys absent
from the raw object keep their default value, keys present in it carry their
raw value, and the raw object `{"s": 5}` yields
`{s: 5, e: 0, badQuestion: false, noAnswer: false}`. -/
theorem c4_consensus_defaulting (ques : Dict) (rec : QuestionRec) (craw : Dict)
    (h : processQuestion ques = .ok rec) (hc : dget ques "consensus" = some (.obj craw)) :
    (∀ k : String, dget craw k = none → dget rec.consensus k = dget consensusDefault k) ∧
    ((craw.map Prod.fst).Nodup →
      ∀ (k : String) (v : JVal), dget craw k = some v → dget rec.consensus k = some v) ∧
    (craw = [("s", .num 5)] →
      rec.consensus = [("s", .num 5), ("e", .num 0), ("badQuestion", .bool false),
                       ("noAnswer", .bool false)]) := by
  obtain ⟨qv, craw', ansRaw, answers, vas, validated, hq, hc', ha, hm, hv, hm2, hrec⟩ :=
    processQuestion_ok h
  rw [hc] at hc'
  simp only [Option.some.injEq, JVal.obj.injEq] at hc'
  subst hc'
  subst hrec
  refine ⟨?_, ?_, ?_⟩
  · intro k hk
    exact dget_mergeOver_none hk _
  · intro hnd k v hkv
    exact dget_mergeOver_some hnd hkv _
  · intro hcr
    subst hcr
    rfl

/-- C4 witness: on a concrete question whose raw consensus is `{"s": 5}` the
yielded consensus is exactly the defaulted-then-overridden dict. -/
theorem c4_consensus_defaulting_witness :
    recC4.consensus = [("s", .num 5), ("e", .num 0), ("badQuestion", .bool false),
                       ("noAnswer", .bool false)] :=
  (c4_consensus_defaulting quesC4 recC4 [("s", .num 5)] rfl rfl).2.2 rfl

/-- C5: a successful combined-structured question takes `isAnswerAbsent = 0`
and `isQuestionBad = 0` when those keys are absent from the raw question and
the raw values verbatim when present, and `validated_answers = []` when
`validatedAnswers` is absent. -/
theorem c5_question_defaults (ques : Dict) (rec : QuestionRec)
    (h : processQuestion ques = .ok rec) :
    (dget ques "isAnswerAbsent" = none → rec.isAnswerAbsent = .num 0) ∧
    (∀ v : JVal, dget ques "isAnswerAbsent" = some v → rec.isAnswerAbsent = v) ∧
    (dget ques "isQuestionBad" = none → rec.isQuestionBad = .num 0) ∧
    (∀ v : JVal, dget ques "isQuestionBad" = some v → rec.isQuestionBad = v) ∧
    (dget ques "validatedAnswers" = none → rec.validated_answers = []) := by
  obtain ⟨qv, craw, ansRaw, answers, vas, validated, hq, hc, ha, hm, hv, hm2, hrec⟩ :=
    processQuestion_ok h
  subst hrec
  refine ⟨?_, ?_, ?_, ?_, ?_⟩
  · intro hnone; simp [hnone]
  · intro v hsome; simp [hsome]
  · intro hnone; simp [hnone]
  · intro v hsome; simp [hsome]
  · intro hnone
    rw [hnone] at hv
    simp only [Option.getD_none, JVal.arr.injEq] at hv
    rw [← hv] at hm2
    simp only [mapE] at hm2
    simp only [Except.ok.injEq] at hm2
    simpa using hm2.symm

/-- C5 witness: a concrete question lacking isAnswerAbsent, isQuestionBad and
validatedAnswers yields the defaulted record. -/
theorem c5_question_defaults_witness :
    recC5.isAnswerAbsent = .num 0 ∧ recC5.isQuestionBad = .num 0 ∧
    recC5.validated_answers = [] :=
  have hth := c5_question_defaults quesC5 recC5 rfl
  ⟨hth.1 rfl, hth.2.2.1 rfl, hth.2.2.2.2 rfl⟩

/-- C6: a structured document whose top-level dict lacks the `data` key fails
with the `data` key error and yields zero records. -/
theorem c6_missing_data (d : Dict) (h : dget d "data" = none) :
    combinedJsonGen (.obj d) = ([], some (.keyError "data")) := by
  have hstep : combinedJsonGen (.obj d) =
      (match dget d "data" with
       | none => ([], some (.keyError "data"))
       | some (.arr items) => enumExcept processItem items 0
       | some _ => ([], some .typeError)) := rfl
  rw [hstep, h]

/-- C6 witness: the missing-`data` failure on a concrete document. -/
theorem c6_missing_data_witness :
    combinedJsonGen (.obj [("datum", .num 1)]) = ([], some (.keyError "data")) :=
  c6_missing_data [("datum", .num 1)] rfl

/-- C9: `ques["consensus"]` and `ques["answers"]` are read unconditionally —
a raw question lacking either key makes the read fail with that key's error —
while a missing `validatedAnswers` is defaulted to the empty list. -/
theorem c9_unconditional_keys :
    (∀ (ques : Dict) (qv : JVal), dget ques "q" = some qv →
        dget ques "consensus" = none →
        processQuestion ques = .error (.keyError "consensus")) ∧
    (∀ (ques : Dict) (qv : JVal) (craw : Dict), dget ques "q" = some qv →
        dget ques "consensus" = some (.obj craw) → dget ques "answers" = none →
        processQuestion ques = .error (.keyError "answers")) ∧
    (∀ (ques : Dict) (rec : QuestionRec), processQuestion ques = .ok rec →
        dget ques "validatedAnswers" = none → rec.validated_answers = []) := by
  refine ⟨?_, ?_, ?_⟩
  · intro ques qv hq hcn
    unfold processQuestion
    rw [hq, hcn]
  · intro ques qv craw hq hc han
    unfold processQuestion
    rw [hq, hc, han]
  · intro ques rec h hnone
    obtain ⟨qv, craw, ansRaw, answers, vas, validated, hq, hc, ha, hm, hv, hm2, hrec⟩ :=
      processQuestion_ok h
    subst hrec
    rw [hnone] at hv
    simp only [Option.getD_none, JVal.arr.injEq] at hv
    rw [← hv] at hm2
    simp only [mapE] at hm2
    simp only [Except.ok.injEq] at hm2
    simpa using hm2.symm

/-- C9 witness: concrete questions lacking `consensus` respectively `answers`
fail with that key's error, while one lacking `validatedAnswers` succeeds
with no validated answers. -/
theorem c9_unconditional_keys_witness :
    processQuestion [("q", .str "w")] = .error (.keyError "consensus") ∧
    processQuestion [("q", .str "w"), ("consensus", .obj [])] =
        .error (.keyError "answers") ∧
    recC5.validated_answers = [] := by
  obtain ⟨h1, h2, h3⟩ := c9_unconditional_keys
  exact ⟨h1 [("q", .str "w")] (.str "w") rfl rfl,
         h2 [("q", .str "w"), ("consensus", .obj [])] (.str "w") [] rfl rfl rfl,
         h3 quesC5 recC5 rfl rfl⟩

/-- C10: the default-then-override merge preserves unrecognized keys — every
key present in a raw consensus object, in a raw sourcerAnswers entry or in a
raw validatedAnswers entry (the raw dicts have pairwise distinct keys)
appears with its raw value in the corresponding output dict, declared schema
or not. -/
theorem c10_extra_keys_preserved (ques : Dict) (rec : QuestionRec)
    (h : processQuestion ques = .ok rec) :
    (∀ craw : Dict, dget ques "consensus" = some (.obj craw) →
        (craw.map Prod.fst).Nodup →
        ∀ (k : String) (v : JVal), dget craw k = some v →
        dget rec.consensus k = some v) ∧
    (∀ ansRaw : List JVal, dget ques "answers" = some (.arr ansRaw) →
        ∀ (i : Nat) (aobj : Dict), ansRaw[i]? = some (.obj aobj) →
        ∀ saRaw : List JVal, dget aobj "sourcerAnswers" = some (.arr saRaw) →
        ∀ (j : Nat) (sobj : Dict), saRaw[j]? = some (.obj sobj) →
        (sobj.map Prod.fst).Nodup →
        ∀ (k : String) (v : JVal), dget sobj k = some v →
        ∃ arec : AnswerRec, rec.answers[i]? = some arec ∧
          ∃ sd : Dict, arec.sourcerAnswers[j]? = some sd ∧ dget sd k = some v) ∧
    (∀ vaRaw : List JVal, dget ques "validatedAnswers" = some (.arr vaRaw) →
        ∀ (i : Nat) (vobj : Dict), vaRaw[i]? = some (.obj vobj) →
        (vobj.map Prod.fst).Nodup →
        ∀ (k : String) (v : JVal), dget vobj k = some v →
        ∃ vd : Dict, rec.validated_answers[i]? = some vd ∧ dget vd k = some v) := by
  obtain ⟨qv, craw', ansRaw', answers, vas, validated, hq, hc', ha', hm, hv, hm2, hrec⟩ :=
    processQuestion_ok h
  subst hrec
  refine ⟨?_, ?_, ?_⟩
  · intro craw hc hnd k v hkv
    rw [hc'] at hc
    simp only [Option.some.injEq, JVal.obj.injEq] at hc
    subst hc
    exact dget_mergeOver_some hnd hkv _
  · intro ansRaw ha i aobj hai saRaw hsa j sobj hsj hnd k v hkv
    rw [ha'] at ha
    simp only [Option.some.injEq, JVal.arr.injEq] at ha
    subst ha
    obtain ⟨arec, harec, hpa⟩ := mapE_ok_get processAnswer ansRaw' answers hm i _ hai
    refine ⟨arec, harec, ?_⟩
    have hpa' : (match dget aobj "sourcerAnswers" with
        | none => Except.error (Err.keyError "sourcerAnswers")
        | some (.arr sas) => Except.map AnswerRec.mk (mapE processSourcerAnswer sas)
        | some _ => Except.error Err.typeError) = Except.ok arec := hpa
    clear hpa
    rw [hsa] at hpa'
    dsimp only at hpa'
    cases hms : mapE processSourcerAnswer saRaw with
    | error e => rw [hms] at hpa'; simp [Except.map] at hpa'
    | ok sas =>
      rw [hms] at hpa'
      simp only [Except.map, Except.ok.injEq] at hpa'
      obtain ⟨sd, hsd, hps⟩ := mapE_ok_get processSourcerAnswer saRaw sas hms j _ hsj
      refine ⟨sd, ?_, ?_⟩
      · rw [← hpa']
        exact hsd
      · unfold processSourcerAnswer at hps
        simp only [Except.ok.injEq] at hps
        rw [← hps]
        exact dget_mergeOver_some hnd hkv _
  · intro vaRaw hva i vobj hvi hnd k v hkv
    rw [hva] at hv
    simp only [Option.getD_some, JVal.arr.injEq] at hv
    rw [← hv] at hm2
    obtain ⟨vd, hvd, hpv⟩ := mapE_ok_get processValidated vaRaw validated hm2 i _ hvi
    refine ⟨vd, hvd, ?_⟩
    unfold processValidated at hpv
    simp only [Except.ok.injEq] at hpv
    rw [← hpv]
    exact dget_mergeOver_some hnd hkv _

/-- C10 witness: concrete raw objects with the extra keys `weird`, `extra`
and `note` keep those keys, with their raw values, in the yielded dicts. -/
theorem c10_extra_keys_preserved_witness :
    dget recC10.consensus "weird" = some (.num 7) ∧
    (∃ arec : AnswerRec, recC10.answers[0]? = some arec ∧
      ∃ sd : Dict, arec.sourcerAnswers[0]? = some sd ∧
        dget sd "extra" = some (.str "x")) ∧
    (∃ vd : Dict, recC10.validated_answers[0]? = some vd ∧
        dget vd "note" = some (.str "y")) := by
  obtain ⟨h1, h2, h3⟩ := c10_extra_keys_preserved quesC10 recC10 rfl
  exact ⟨h1 [("s", .num 5), ("weird", .num 7)] rfl (by decide) "weird" (.num 7) rfl,
         h2 _ rfl 0 [("sourcerAnswers", .arr [.obj [("e", .num 2), ("extra", .str "x")]])]
            (by simp) _ rfl 0 [("e", .num 2), ("extra", .str "x")] (by simp) (by decide)
            "extra" (.str "x") rfl,
         h3 _ rfl 0 [("count", .num 3), ("note", .str "y")] (by simp) (by decide) "note"
            (.str "y") rfl⟩

/-- C7: whatever the configuration, a missing root directory fails the
split-generator step with the file-not-found message — which starts with the
expected path and ends with the manual-acquisition instructions — and no
partition list is produced, so no partition file path is ever handed to a
reader. -/
theorem c7_missing_root (configName root : String) :
    splitGenerators configName false root = .error (missingRootMessage root) ∧
    (∃ mid : String, missingRootMessage root = root ++ mid ++ manualDownloadInstructions) ∧
    ∀ gens : List SplitGen, splitGenerators configName false root ≠ .ok gens := by
  refine ⟨rfl, ⟨" does not exist. Make sure you insert a manual dir via `datasets.load_dataset('newsqa', data_dir=...)` that includes files from the Manual download instructions: ", rfl⟩, ?_⟩
  intro gens hcontra
  simp [splitGenerators] at hcontra

/-- C8: with an existing root, the `split` configuration resolves to exactly
the three partitions train/test/dev under `<root>/split_data/`, and the two
combined configurations to their single combined file. -/
theorem c8_partition_paths (root : String) :
    splitGenerators "split" true root =
      .ok [⟨"train", root ++ "/split_data/train.csv", "train"⟩,
           ⟨"test", root ++ "/split_data/test.csv", "test"⟩,
           ⟨"validation", root ++ "/split_data/dev.csv", "dev"⟩] ∧
    splitGenerators "combined-csv" true root =
      .ok [⟨"train", root ++ "/combined-newsqa-data-v1.csv", "combined"⟩] ∧
    splitGenerators "combined-json" true root =
      .ok [⟨"train", root ++ "/combined-newsqa-data-v1.json", "combined"⟩] := by
  refine ⟨?_, ?_, ?_⟩ <;> simp [splitGenerators, pathJoin, String.append_assoc]

end NewsqaSpec
